import Mathlib

set_option linter.unusedVariables false

/-!
Shallow embedding of the persistent-session core of the ssh-mcp server
(src/index.ts).  JavaScript strings are modelled as lists of characters,
the event-driven session object as an explicit state record, and the
asynchronous callbacks (promise resolution, pending-command rejection,
registry notification) as explicit effect values returned by each step.
-/

/-- JavaScript whitespace (the regex class used by trim and by the
    readiness-sentinel replacement), restricted to ASCII. -/
def isJsWs (c : Char) : Bool :=
  c = ' ' || c = '\t' || c = '\n' || c = '\r' || c = '\x0b' || c = '\x0c'

/-- JS String.prototype.trim: strip leading and trailing whitespace. -/
def jsTrim (l : List Char) : List Char :=
  ((l.dropWhile isJsWs).reverse.dropWhile isJsWs).reverse

/-- Global replacement of carriage returns by nothing. -/
def removeCR (l : List Char) : List Char := l.filter (fun c => c ≠ '\r')

/-- Replacement of the trailing-whitespace run by nothing. -/
def trimTrailingWs (l : List Char) : List Char :=
  (l.reverse.dropWhile isJsWs).reverse

/-- JS String.prototype.indexOf: first index at which needle occurs in the
    string, with none standing for the JS result -1. -/
def strIndexOf (needle : List Char) : List Char → Option Nat
  | [] => if needle.isPrefixOf ([] : List Char) then some 0 else none
  | c :: t =>
    if needle.isPrefixOf (c :: t) then some 0
    else (strIndexOf needle t).map (fun n => n + 1)

/-- Numeric value of a run of decimal digits; none when the run is empty. -/
def digitsVal : List Char → Option Nat
  | [] => none
  | l => some (l.foldl (fun acc c => acc * 10 + (c.toNat - 48)) 0)

/-- JS Number.parseInt with radix 10: skip leading whitespace, read an
    optional sign, then the maximal run of decimal digits; NaN (here none)
    when that run is empty. -/
def jsParseInt (l : List Char) : Option Int :=
  let l2 := l.dropWhile isJsWs
  match l2 with
  | '-' :: rest => (digitsVal (rest.takeWhile Char.isDigit)).map (fun n => -(n : Int))
  | '+' :: rest => (digitsVal (rest.takeWhile Char.isDigit)).map (fun n => (n : Int))
  | _ => (digitsVal (l2.takeWhile Char.isDigit)).map (fun n => (n : Int))

/-- The readiness sentinel filtered out of command output. -/
def readySentinel : List Char := "__MCP_READY__".data

/-- One left-to-right scan implementing the global replacement of the
    pattern readiness-sentinel-then-whitespace-run by nothing.  The skip
    counter holds how many characters of a matched sentinel are still to be
    consumed; the flag says whether the scan sits inside the whitespace run
    that a matched sentinel absorbs.  At every other position, a sentinel
    starting there begins a new match, and otherwise the character is
    kept. -/
def stripReadyGo : List Char → Nat → Bool → List Char
  | [], _, _ => []
  | _ :: t, Nat.succ skip, ws => stripReadyGo t skip ws
  | c :: t, 0, ws =>
    if ws && isJsWs c then stripReadyGo t 0 true
    else if readySentinel.isPrefixOf (c :: t) then
      stripReadyGo t (readySentinel.length - 1) true
    else c :: stripReadyGo t 0 false

/-- Global replacement of the pattern readiness-sentinel-then-whitespace-run
    by nothing: wherever the sentinel starts, it and the maximal whitespace
    run after it are consumed and scanning resumes after the match. -/
def stripReady (l : List Char) : List Char := stripReadyGo l 0 false

/-- Errors the session layer hands to a pending command or a caller. -/
inductive SshError where
  | transport (msg : List Char)
  | sessionClosed
  deriving Repr, DecidableEq

/-- Resolved value of one command execution. -/
structure ExecResult where
  output : List Char
  exitCode : Int
  deriving Repr, DecidableEq

/-- State of one PersistentSession object.  The conn and shell fields carry
    identifiers of the client and channel objects currently stored (none when
    the field is null); attempts counts how many times a fresh client was
    created and told to connect; nextConnId supplies fresh identifiers. -/
structure SessionState where
  conn : Option Nat
  shell : Option Nat
  attempts : Nat
  nextConnId : Nat
  buffer : List Char
  pending : Option (List Char)
  disposed : Bool
  timerActive : Bool
  lastCommand : Option (List Char)
  deriving Repr, DecidableEq

/-- A just-constructed PersistentSession. -/
def initialSession : SessionState :=
  { conn := none, shell := none, attempts := 0, nextConnId := 0,
    buffer := [], pending := none, disposed := false,
    timerActive := false, lastCommand := none }

/-- Observable side effects of one cleanup run: whether a pending command
    was rejected (and with which error), and whether the onDispose callback
    was invoked. -/
structure CleanupEffects where
  rejectedPending : Option SshError
  notifiedDispose : Bool
  deriving Repr, DecidableEq

/-- No pending command rejected, no registry notification. -/
def noEffects : CleanupEffects := { rejectedPending := none, notifiedDispose := false }

/-- PersistentSession.cleanup: cancel the inactivity timer, drop the shell
    and connection handles, reject any pending command (with the passed
    error, else a session-closed error), clear the buffer, and invoke the
    onDispose callback exactly when the disposed flag is already set.
    The disposed flag itself is not touched here. -/
def cleanup (s : SessionState) (error : Option SshError) : SessionState × CleanupEffects :=
  ({ s with timerActive := false, shell := none, conn := none,
            pending := none, buffer := [] },
   { rejectedPending := if s.pending.isSome then some (error.getD SshError.sessionClosed) else none,
     notifiedDispose := s.disposed })

/-- PersistentSession.dispose: return at once when already disposed,
    otherwise set the disposed flag and run cleanup. -/
def dispose (s : SessionState) : SessionState × CleanupEffects :=
  if s.disposed then (s, noEffects)
  else cleanup { s with disposed := true } none

/-- The character the completion scan looks for after the marker. -/
def newlineChar : List Char := ['\n']

/-- PersistentSession.processPending: when a command is pending, scan the
    accumulated buffer for its marker; when the marker and a newline after
    it are both present, split off the exit-code text, keep everything after
    the newline as the next buffer, derive the output from everything before
    the marker, resolve the pending command and restart the inactivity
    timer; otherwise leave the state untouched. -/
def processPending (s : SessionState) : SessionState × Option ExecResult :=
  match s.pending with
  | none => (s, none)
  | some marker =>
    match strIndexOf marker s.buffer with
    | none => (s, none)
    | some markerIndex =>
      let afterMarker := s.buffer.drop (markerIndex + marker.length)
      match strIndexOf newlineChar afterMarker with
      | none => (s, none)
      | some newlineIndex =>
        let exitCodeText := jsTrim (afterMarker.take newlineIndex)
        let remaining := afterMarker.drop (newlineIndex + 1)
        let output := removeCR (s.buffer.take markerIndex)
        let exitCode := jsParseInt exitCodeText
        let finalOutput := trimTrailingWs (stripReady output)
        ({ s with buffer := remaining, pending := none, timerActive := true },
         some { output := finalOutput, exitCode := exitCode.getD 0 })

/-- The stream data handler: append the chunk to the accumulation buffer,
    then re-scan for the pending marker. -/
def feed (s : SessionState) (chunk : List Char) : SessionState × Option ExecResult :=
  processPending { s with buffer := s.buffer ++ chunk }

/-- Outcome of one attempted transport connect, as decided by the
    environment. -/
inductive ConnOutcome where
  | ok
  | err (e : SshError)
  deriving Repr, DecidableEq

/-- Result observed by a caller of ensureConnected. -/
inductive EnsureResult where
  | connected
  | disposedError
  | connectError (e : SshError)
  deriving Repr, DecidableEq

/-- PersistentSession.ensureConnected, with the whole connect round trip
    taken as one step whose outcome the environment chooses: throw when
    disposed; return at once when client and shell are both present
    (without touching the timer); otherwise create a fresh client, store
    it, and attempt to connect.  Success stores the shell channel and
    starts the inactivity timer; failure runs cleanup with the error and
    surfaces it. -/
def ensureConnected (s : SessionState) (env : ConnOutcome) :
    SessionState × CleanupEffects × EnsureResult :=
  if s.disposed then (s, noEffects, EnsureResult.disposedError)
  else if s.conn.isSome && s.shell.isSome then (s, noEffects, EnsureResult.connected)
  else
    let s1 := { s with conn := some s.nextConnId,
                       attempts := s.attempts + 1,
                       nextConnId := s.nextConnId + 1 }
    match env with
    | ConnOutcome.ok =>
      ({ s1 with shell := some s1.nextConnId,
                 nextConnId := s1.nextConnId + 1,
                 timerActive := true },
       noEffects, EnsureResult.connected)
    | ConnOutcome.err e =>
      let r := cleanup s1 (some e)
      (r.1, r.2, EnsureResult.connectError e)

/-- The synchronous prefix of ensureConnected as seen by one caller on the
    single-threaded event loop: the disposed and connected checks, then -
    when the session is not fully connected - creation of a fresh client,
    storing it in the conn field and telling it to connect.  The returned
    Bool says whether a new connection attempt was started. -/
def ensureConnectedBegin (s : SessionState) : SessionState × Bool :=
  if s.disposed then (s, false)
  else if s.conn.isSome && s.shell.isSome then (s, false)
  else ({ s with conn := some s.nextConnId,
                 attempts := s.attempts + 1,
                 nextConnId := s.nextConnId + 1 }, true)

/-- The completion marker built from a fresh token. -/
def mkMarker (token : List Char) : List Char :=
  "__MCP_DONE__".data ++ token ++ "__".data

/-- Outcome observed by a caller of execute at the moment the command is
    accepted or refused. -/
inductive ExecOutcome where
  | disposedError
  | connectError (e : SshError)
  | shellNotReady
  | busy
  | accepted (marker : List Char)
  deriving Repr, DecidableEq

/-- PersistentSession.execute up to acceptance: ensure the session is
    connected, fail when the shell is missing, fail fast when a command is
    already pending, otherwise record the command as last executed, restart
    the inactivity timer, and install the pending command with a marker
    built from the fresh token. -/
def execute (s : SessionState) (env : ConnOutcome) (token command : List Char) :
    SessionState × CleanupEffects × ExecOutcome :=
  let r := ensureConnected s env
  match r.2.2 with
  | EnsureResult.disposedError => (r.1, r.2.1, ExecOutcome.disposedError)
  | EnsureResult.connectError e => (r.1, r.2.1, ExecOutcome.connectError e)
  | EnsureResult.connected =>
    if r.1.shell.isNone then (r.1, r.2.1, ExecOutcome.shellNotReady)
    else if r.1.pending.isSome then (r.1, r.2.1, ExecOutcome.busy)
    else
      ({ r.1 with lastCommand := some command,
                  timerActive := true,
                  pending := some (mkMarker token) },
       r.2.1, ExecOutcome.accepted (mkMarker token))

/-- The connection error handler installed by ensureConnected: run cleanup
    with the triggering error. -/
def onConnError (s : SessionState) (e : SshError) : SessionState × CleanupEffects :=
  cleanup s (some e)

/-- The stream close handler and the connection end handler: run cleanup
    with no error. -/
def onStreamClose (s : SessionState) : SessionState × CleanupEffects :=
  cleanup s none

/-- The inactivity timer callback: dispose the session. -/
def fireTimer (s : SessionState) : SessionState × CleanupEffects :=
  dispose s

/-- The process-wide activeSessions map, session objects stood for by the
    identifier tokens under which a World stores their state. -/
abbrev Registry := List (String × Nat)

/-- Map.get on the registry. -/
def regGet (reg : Registry) (id : String) : Option Nat :=
  (reg.find? (fun p => p.1 == id)).map (fun p => p.2)

/-- Map.delete on the registry. -/
def regDelete (reg : Registry) (id : String) : Registry :=
  reg.filter (fun p => p.1 != id)

/-- Map.set on the registry: replace the entry in place, else append. -/
def regSet (reg : Registry) (id : String) (tok : Nat) : Registry :=
  if (regGet reg id).isSome then
    reg.map (fun p => if p.1 == id then (id, tok) else p)
  else reg ++ [(id, tok)]

/-- The disposal callback getOrCreateSession installs: delete the entry
    only when the session currently stored under the id is the very session
    captured by the callback. -/
def disposalCallback (reg : Registry) (id : String) (captured : Nat) : Registry :=
  if regGet reg id = some captured then regDelete reg id else reg

/-- Whole-process state: the registry, the state of every session object
    ever created (keyed by token), and a supply of fresh tokens. -/
structure World where
  reg : Registry
  store : List (Nat × SessionState)
  nextTok : Nat
  deriving Repr, DecidableEq

/-- State of the session object a token denotes. -/
def storeGet (w : World) (tok : Nat) : Option SessionState :=
  (w.store.find? (fun p => p.1 == tok)).map (fun p => p.2)

/-- Update the state of the session object a token denotes. -/
def storeSet (w : World) (tok : Nat) (s : SessionState) : World :=
  { w with store := (tok, s) :: w.store.filter (fun p => p.1 != tok) }

/-- Run dispose on the session a token denotes, and let its onDispose
    callback fire the disposal callback against the registry when cleanup
    reports the notification. -/
def disposeInWorld (w : World) (id : String) (tok : Nat) : World :=
  match storeGet w tok with
  | none => w
  | some s =>
    let r := dispose s
    let w2 := storeSet w tok r.1
    if r.2.notifiedDispose then { w2 with reg := disposalCallback w2.reg id tok } else w2

/-- Result of getOrCreateSession: the updated world, the token of the
    session returned to the caller, and the outcome of ensureConnected. -/
structure GetOrCreateResult where
  world : World
  tok : Nat
  result : EnsureResult
  deriving Repr, DecidableEq

/-- getOrCreateSession: look the id up; under forceNew an existing session
    is disposed and its entry deleted; when no session remains a fresh
    PersistentSession is constructed and registered; finally
    ensureConnected runs on the chosen session (its cleanup notification,
    when reported, fires the disposal callback). -/
def getOrCreate (w : World) (id : String) (forceNew : Bool) (env : ConnOutcome) :
    GetOrCreateResult :=
  let w1 :=
    match regGet w.reg id with
    | some tok =>
      if forceNew then
        let w2 := disposeInWorld w id tok
        { w2 with reg := regDelete w2.reg id }
      else w
    | none => w
  match regGet w1.reg id with
  | some tok =>
    match storeGet w1 tok with
    | none =>
      -- unreachable for well-formed worlds whose registry tokens are stored
      { world := w1, tok := tok, result := EnsureResult.disposedError }
    | some s =>
      let r := ensureConnected s env
      let w2 := storeSet w1 tok r.1
      let w3 := if r.2.1.notifiedDispose
        then { w2 with reg := disposalCallback w2.reg id tok } else w2
      { world := w3, tok := tok, result := r.2.2 }
  | none =>
    let tok := w1.nextTok
    let r := ensureConnected initialSession env
    let w2 := storeSet w1 tok r.1
    let w3 := { w2 with nextTok := w1.nextTok + 1, reg := regSet w2.reg id tok }
    let w4 := if r.2.1.notifiedDispose
      then { w3 with reg := disposalCallback w3.reg id tok } else w3
    { world := w4, tok := tok, result := r.2.2 }

/-- Outcome the exec tool hands back to the MCP client. -/
inductive ToolOutcome where
  | success (text : List Char)
  | mcpError (msg : List Char)
  deriving Repr, DecidableEq

/-- The error message the exec tool builds from a non-zero exit code. -/
def execErrorMessage (exitCode : Int) (output : List Char) : List Char :=
  "Error (code ".data ++ (toString exitCode).data ++ "):\n".data ++ output

/-- The tail of the exec tool handler, applied to the value
    session.execute resolved with: a non-zero exit code becomes an McpError
    carrying the output, a zero exit code becomes a plain text result. -/
def execToolResult (r : ExecResult) : ToolOutcome :=
  if r.exitCode ≠ 0 then ToolOutcome.mcpError (execErrorMessage r.exitCode r.output)
  else ToolOutcome.success r.output

/-- The length bound the code enforces on commands. -/
def maxCommandLength : Nat := 15000

/-- The message of the too-long error, which names a smaller bound. -/
def tooLongMessage : List Char := "Command is too long (max 1000 characters)".data

/-- The message of the empty-command error. -/
def emptyMessage : List Char := "Command cannot be empty".data

/-- Result of sanitizeCommand: the trimmed command, or an invalid-params
    McpError with the given message. -/
inductive SanitizeResult where
  | ok (cmd : List Char)
  | invalidParams (msg : List Char)
  deriving Repr, DecidableEq

/-- sanitizeCommand: trim the command, reject the empty result, reject a
    result longer than the enforced bound, otherwise return the trimmed
    command. -/
def sanitizeCommand (command : List Char) : SanitizeResult :=
  let trimmedCommand := jsTrim command
  if trimmedCommand = [] then SanitizeResult.invalidParams emptyMessage
  else if trimmedCommand.length > maxCommandLength then SanitizeResult.invalidParams tooLongMessage
  else SanitizeResult.ok trimmedCommand

/-- A session whose connect and shell-open have succeeded, with the given
    pending marker and accumulated buffer. -/
def connectedWith (marker buf : List Char) : SessionState :=
  { initialSession with conn := some 0, shell := some 1, nextConnId := 2, attempts := 1,
                        pending := some marker, timerActive := true, buffer := buf }

/-- The marker of the split-chunk scenario. -/
def c1Marker : List Char := "__MCP_DONE__tok".data

/-- The split-chunk scenario before any data. -/
def c1Start : SessionState := connectedWith c1Marker []

/-- The split-chunk scenario after the first chunk. -/
def c1Mid : SessionState := connectedWith c1Marker "abc__MCP_DO".data

/-- A connected session with a pending command and some accumulated
    output. -/
def c4Pending : SessionState := connectedWith "__MCP_DONE__t__".data "someout".data

/-- A concrete transport error. -/
def c4Err : SshError := SshError.transport "ECONNRESET".data

/-- A connected session with a pending command, used to exercise
    disposal. -/
def c5Session : SessionState := connectedWith "__MCP_DONE__u__".data "buf".data

/-- A connected session whose buffer already holds a completed command
    with a non-zero exit code. -/
def c7Exit : SessionState := connectedWith "__MCP_DONE__v__".data "__MCP_DONE__v__7\n".data

/-!
Helper lemmas shared by the claim theorems.
-/

/-- When the marker and a newline after it are both found, processPending
    resolves with the output and exit code the code derives, keeps the rest
    of the buffer, drops the pending command and restarts the timer. -/
theorem processPending_found (s : SessionState) (m : List Char) (i j : Nat)
    (hp : s.pending = some m)
    (hi : strIndexOf m s.buffer = some i)
    (hj : strIndexOf newlineChar (s.buffer.drop (i + m.length)) = some j) :
    processPending s =
      ({ s with buffer := (s.buffer.drop (i + m.length)).drop (j + 1),
                pending := none, timerActive := true },
       some { output := trimTrailingWs (stripReady (removeCR (s.buffer.take i))),
              exitCode := (jsParseInt (jsTrim ((s.buffer.drop (i + m.length)).take j))).getD 0 }) := by
  unfold processPending
  rw [hp]
  simp only [hi, hj]

/-- When no command is pending, or the marker is absent, or no newline
    follows the marker yet, processPending changes nothing. -/
theorem processPending_waits (s : SessionState)
    (h : s.pending = none ∨
      (∃ m, s.pending = some m ∧ strIndexOf m s.buffer = none) ∨
      (∃ m i, s.pending = some m ∧ strIndexOf m s.buffer = some i ∧
        strIndexOf newlineChar (s.buffer.drop (i + m.length)) = none)) :
    processPending s = (s, none) := by
  unfold processPending
  rcases h with hp | ⟨m, hp, hi⟩ | ⟨m, i, hp, hi, hj⟩
  · rw [hp]
  · rw [hp]; simp only [hi]
  · rw [hp]; simp only [hi, hj]

/-- Inversion for a resolving processPending step: the pending slot is
    emptied, the timer restarted, and the connection fields are untouched. -/
theorem processPending_some_inv (s s2 : SessionState) (r : ExecResult)
    (h : processPending s = (s2, some r)) :
    s2.pending = none ∧ s2.timerActive = true ∧ s2.conn = s.conn ∧
    s2.shell = s.shell ∧ s2.disposed = s.disposed ∧ s2.lastCommand = s.lastCommand := by
  cases hp : s.pending with
  | none =>
    rw [processPending_waits s (Or.inl hp)] at h
    simp at h
  | some m =>
    cases hi : strIndexOf m s.buffer with
    | none =>
      rw [processPending_waits s (Or.inr (Or.inl ⟨m, hp, hi⟩))] at h
      simp at h
    | some i =>
      cases hj : strIndexOf newlineChar (s.buffer.drop (i + m.length)) with
      | none =>
        rw [processPending_waits s (Or.inr (Or.inr ⟨m, i, hp, hi, hj⟩))] at h
        simp at h
      | some j =>
        rw [processPending_found s m i j hp hi hj] at h
        have hs2 := congrArg Prod.fst h
        simp only at hs2
        rw [← hs2]
        simp

/-- Dispose on an already-disposed session returns it unchanged with no
    effects. -/
theorem dispose_already (s : SessionState) (h : s.disposed = true) :
    dispose s = (s, noEffects) := by
  simp [dispose, h]

/-- Deleting an id from the registry makes lookups of that id fail. -/
theorem regGet_regDelete (reg : Registry) (id : String) :
    regGet (regDelete reg id) id = none := by
  induction reg with
  | nil => rfl
  | cons p t ih =>
    simp only [regDelete, List.filter_cons] at ih ⊢
    by_cases h : p.1 = id
    · simp [h, ih]
    · simp only [regGet, List.find?] at ih ⊢
      simp [h, ih]

/-- Appending a fresh binding to a registry that lacks the id makes lookups
    of that id find the new binding. -/
theorem regGet_append_fresh (reg : Registry) (id : String) (tok : Nat)
    (h : regGet reg id = none) : regGet (reg ++ [(id, tok)]) id = some tok := by
  induction reg with
  | nil => simp [regGet, List.find?]
  | cons p t ih =>
    by_cases hp : p.1 = id
    · exfalso
      simp [regGet, List.find?, hp] at h
    · have hb : (p.1 == id) = false := by simp [hp]
      simp only [regGet, List.find?, hb, List.cons_append] at h ⊢
      exact ih h

/-!
Claim theorems.
-/

/-- Claim C1: a completion marker split across two feed chunks is still
    detected because the accumulated buffer, not the chunk, is scanned.
    With pending marker the first chunk resolves nothing and is retained,
    the second chunk resolves the command with output abc and exit code 42
    and keeps exactly rest in the buffer for the next command; and whenever
    the marker is present without a following newline, the pending command
    is left untouched awaiting more data. -/
theorem c1_marker_split_across_chunks :
    (feed c1Start "abc__MCP_DO".data = (c1Mid, none)) ∧
    (feed c1Mid "NE__tok42\nrest".data =
      ({ c1Mid with buffer := "rest".data, pending := none },
       some { output := "abc".data, exitCode := 42 })) ∧
    (∀ (s : SessionState) (m : List Char) (i : Nat),
      s.pending = some m →
      strIndexOf m s.buffer = some i →
      strIndexOf newlineChar (s.buffer.drop (i + m.length)) = none →
      processPending s = (s, none)) := by
  refine ⟨by decide, by decide, ?_⟩
  intro s m i hp hi hj
  exact processPending_waits s (Or.inr (Or.inr ⟨m, i, hp, hi, hj⟩))

/-- Witness for the quantified part of the C1 theorem: a concrete buffer
    holding the marker but no newline after it is left untouched. -/
theorem c1_marker_split_witness :
    processPending (connectedWith c1Marker "abc__MCP_DONE__tok4".data) =
      (connectedWith c1Marker "abc__MCP_DONE__tok4".data, none) :=
  c1_marker_split_across_chunks.2.2 _ c1Marker 3 (by decide) (by decide) (by decide)

/-- Claim C2: when the pending marker and a following newline are found,
    the command resolves with output equal to the buffer strictly before
    the marker with carriage returns removed, readiness sentinels (with
    trailing whitespace) filtered out and trailing whitespace trimmed, and
    with the exit code parsed from the text between marker and newline,
    defaulting to 0 when the parse fails; a command with no output
    resolves with the empty string, not an error. -/
theorem c2_result_derivation :
    (∀ (s : SessionState) (m : List Char) (i j : Nat),
      s.pending = some m →
      strIndexOf m s.buffer = some i →
      strIndexOf newlineChar (s.buffer.drop (i + m.length)) = some j →
      processPending s =
        ({ s with buffer := (s.buffer.drop (i + m.length)).drop (j + 1),
                  pending := none, timerActive := true },
         some { output := trimTrailingWs (stripReady (removeCR (s.buffer.take i))),
                exitCode := (jsParseInt (jsTrim ((s.buffer.drop (i + m.length)).take j))).getD 0 })) ∧
    ((processPending (connectedWith "__MCP_DONE__t__".data "__MCP_DONE__t__0\n".data)).2 =
      some { output := [], exitCode := 0 }) ∧
    ((processPending (connectedWith "__MCP_DONE__t__".data
        "hi\r__MCP_READY__ \nok__MCP_DONE__t__zz\n".data)).2 =
      some { output := "hiok".data, exitCode := 0 }) :=
  ⟨processPending_found, by decide, by decide⟩

/-- Witness for the quantified part of the C2 theorem at a concrete
    buffer. -/
theorem c2_result_witness :
    processPending (connectedWith "M__".data "outM__7\nnext".data) =
      ({ connectedWith "M__".data "outM__7\nnext".data with
           buffer := "next".data, pending := none, timerActive := true },
       some { output := "out".data, exitCode := 7 }) := by
  have h := c2_result_derivation.1 (connectedWith "M__".data "outM__7\nnext".data)
    "M__".data 3 1 (by decide) (by decide) (by decide)
  exact h.trans (by decide)

/-- Claim C3: while a command is pending, a second execute call on the same
    session fails immediately with the busy error and leaves the whole
    session state - the pending marker, the accumulation buffer, the
    recorded last-executed command - untouched, so the first command
    eventually resolves exactly as it would have without the rejected
    call. -/
theorem c3_busy_rejection (s : SessionState) (env : ConnOutcome) (token command m : List Char)
    (hd : s.disposed = false) (hc : s.conn.isSome = true) (hs : s.shell.isSome = true)
    (hp : s.pending = some m) :
    execute s env token command = (s, noEffects, ExecOutcome.busy) ∧
    processPending (execute s env token command).1 = processPending s := by
  obtain ⟨cn, hcn⟩ := Option.isSome_iff_exists.mp hc
  obtain ⟨sh, hsh⟩ := Option.isSome_iff_exists.mp hs
  have h1 : ensureConnected s env = (s, noEffects, EnsureResult.connected) := by
    simp [ensureConnected, hd, hcn, hsh]
  have h2 : execute s env token command = (s, noEffects, ExecOutcome.busy) := by
    simp [execute, h1, hsh, hp]
  exact ⟨h2, by rw [h2]⟩

/-- Witness for the C3 theorem: a concrete busy session rejects a second
    command unchanged. -/
theorem c3_busy_witness :
    execute c5Session ConnOutcome.ok "t2".data "ls".data =
      (c5Session, noEffects, ExecOutcome.busy) :=
  (c3_busy_rejection c5Session ConnOutcome.ok "t2".data "ls".data
    "__MCP_DONE__u__".data (by decide) (by decide) (by decide) (by decide)).1

/-- Claim C4 counterexample: at a connected session with a pending command,
    a transport error runs cleanup but leaves the disposed flag false and
    never notifies the registry, and a later ensureConnected call happily
    reconnects instead of failing with a disposed error - contradicting the
    claim that any transport failure forces the terminal Disposed state and
    converges to removal of the registry entry. -/
theorem c4_counterexample :
    (onConnError c4Pending c4Err).1.disposed = false ∧
    (onConnError c4Pending c4Err).2.notifiedDispose = false ∧
    (ensureConnected (onConnError c4Pending c4Err).1 ConnOutcome.ok).2.2 =
      EnsureResult.connected := by
  decide

/-- Claim C4 amended: a transport-level failure (connection error, stream
    close, or failure during connect) triggers cleanup, not dispose: any
    pending command is rejected with the triggering error (with a
    session-closed error on a plain close), the handles, buffer and timer
    are cleared, but the disposed flag stays false, the registry is not
    notified (the entry stays), and a later ensureConnected reattempts the
    connection rather than failing with a disposed error. -/
theorem c4_transport_failure_cleanup (s : SessionState) (e : SshError)
    (hd : s.disposed = false) :
    onConnError s e =
      ({ s with conn := none, shell := none, pending := none, buffer := [],
                timerActive := false },
       { rejectedPending := if s.pending.isSome then some e else none,
         notifiedDispose := false }) ∧
    onStreamClose s =
      ({ s with conn := none, shell := none, pending := none, buffer := [],
                timerActive := false },
       { rejectedPending := if s.pending.isSome then some SshError.sessionClosed else none,
         notifiedDispose := false }) ∧
    (ensureConnected (onConnError s e).1 ConnOutcome.ok).2.2 = EnsureResult.connected := by
  refine ⟨?_, ?_, ?_⟩
  · simp [onConnError, cleanup, hd]
  · simp [onStreamClose, cleanup, hd]
  · simp [onConnError, cleanup, ensureConnected, hd]

/-- Witness for the amended C4 theorem at the concrete pending session. -/
theorem c4_transport_failure_witness :
    onConnError c4Pending c4Err =
      ({ c4Pending with conn := none, shell := none, pending := none, buffer := [],
                        timerActive := false },
       { rejectedPending := some c4Err, notifiedDispose := false }) :=
  ((c4_transport_failure_cleanup c4Pending c4Err (by decide)).1).trans (by decide)

/-- Claim C5: dispose is idempotent: the first call cancels the timer,
    clears handles and buffer, rejects a pending command with the
    session-closed error, sets the disposed flag and notifies the registry;
    a second call has no further effect and no second notification; and
    every later ensureConnected or execute call fails with the disposed
    error without changing the state. -/
theorem c5_dispose_idempotent (s : SessionState) (env : ConnOutcome) (token command : List Char)
    (hd : s.disposed = false) :
    dispose s =
      ({ s with disposed := true, conn := none, shell := none, pending := none,
                buffer := [], timerActive := false },
       { rejectedPending := if s.pending.isSome then some SshError.sessionClosed else none,
         notifiedDispose := true }) ∧
    dispose (dispose s).1 = ((dispose s).1, noEffects) ∧
    ensureConnected (dispose s).1 env = ((dispose s).1, noEffects, EnsureResult.disposedError) ∧
    execute (dispose s).1 env token command =
      ((dispose s).1, noEffects, ExecOutcome.disposedError) := by
  have h1 : dispose s =
      ({ s with disposed := true, conn := none, shell := none, pending := none,
                buffer := [], timerActive := false },
       { rejectedPending := if s.pending.isSome then some SshError.sessionClosed else none,
         notifiedDispose := true }) := by
    simp [dispose, cleanup, hd]
  have hd2 : (dispose s).1.disposed = true := by rw [h1]
  have h3 : ensureConnected (dispose s).1 env =
      ((dispose s).1, noEffects, EnsureResult.disposedError) := by
    simp [ensureConnected, hd2]
  refine ⟨h1, dispose_already _ hd2, h3, ?_⟩
  simp [execute, h3]

/-- Witness for the C5 theorem at a concrete pending session. -/
theorem c5_dispose_witness :
    dispose c5Session =
      ({ c5Session with disposed := true, conn := none, shell := none, pending := none,
                        buffer := [], timerActive := false },
       { rejectedPending := some SshError.sessionClosed, notifiedDispose := true }) ∧
    dispose (dispose c5Session).1 = ((dispose c5Session).1, noEffects) := by
  have h := c5_dispose_idempotent c5Session ConnOutcome.ok [] [] (by decide)
  exact ⟨h.1.trans (by decide), h.2.1⟩

/-- Claim C6 counterexample: from an unconnected session, a first
    ensureConnected call starts a connect; before its shell opens, a second
    caller runs the same synchronous check, sees the shell still missing,
    and starts a second connection attempt, overwriting the stored client -
    contradicting the claim that no second connection attempt or shell is
    ever opened while one connect is in progress. -/
theorem c6_counterexample :
    (ensureConnectedBegin initialSession).2 = true ∧
    (ensureConnectedBegin initialSession).1.attempts = 1 ∧
    (ensureConnectedBegin (ensureConnectedBegin initialSession).1).2 = true ∧
    (ensureConnectedBegin (ensureConnectedBegin initialSession).1).1.attempts = 2 ∧
    (ensureConnectedBegin (ensureConnectedBegin initialSession).1).1.conn = some 1 := by
  decide

/-- Claim C6 amended: ensureConnected has no guard for an in-progress
    connect: every call that finds the session undisposed and the shell not
    yet open starts its own fresh connection attempt and overwrites the
    stored client, so concurrent callers do not share a single outcome and
    duplicate connection attempts occur for one session. -/
theorem c6_duplicate_connect (s : SessionState)
    (hd : s.disposed = false) (hs : s.shell = none) :
    ensureConnectedBegin s =
      ({ s with conn := some s.nextConnId, attempts := s.attempts + 1,
                nextConnId := s.nextConnId + 1 }, true) := by
  simp [ensureConnectedBegin, hd, hs]

/-- Witness for the amended C6 theorem at the state where the first connect
    is still in progress. -/
theorem c6_duplicate_connect_witness :
    ensureConnectedBegin { initialSession with conn := some 0, attempts := 1, nextConnId := 1 } =
      ({ initialSession with conn := some 1, attempts := 2, nextConnId := 2 }, true) :=
  (c6_duplicate_connect { initialSession with conn := some 0, attempts := 1, nextConnId := 1 }
    (by decide) (by decide)).trans (by decide)

/-- Claim C7: a non-zero exit code is not a transport or protocol failure:
    the resolving step hands back a normal result and leaves the session
    connected, undisposed, with the pending slot free and the timer
    restarted, so it stays reusable; the exec tool layer is what turns a
    non-zero exit code into an McpError whose message carries the output,
    while a zero exit code yields the plain output. -/
theorem c7_nonzero_exit_is_normal :
    (∀ (s s2 : SessionState) (r : ExecResult), processPending s = (s2, some r) →
      s2.pending = none ∧ s2.conn = s.conn ∧ s2.shell = s.shell ∧
      s2.disposed = s.disposed ∧ s2.timerActive = true) ∧
    (∀ r : ExecResult, r.exitCode ≠ 0 →
      execToolResult r = ToolOutcome.mcpError (execErrorMessage r.exitCode r.output) ∧
      ∃ pre, execErrorMessage r.exitCode r.output = pre ++ r.output) ∧
    (∀ r : ExecResult, r.exitCode = 0 → execToolResult r = ToolOutcome.success r.output) ∧
    ((processPending c7Exit).2 = some { output := [], exitCode := 7 }) ∧
    ((execute (processPending c7Exit).1 ConnOutcome.ok "w".data "pwd".data).2.2 =
      ExecOutcome.accepted (mkMarker "w".data)) := by
  refine ⟨?_, ?_, ?_, by decide, by decide⟩
  · intro s s2 r h
    have hh := processPending_some_inv s s2 r h
    exact ⟨hh.1, hh.2.2.1, hh.2.2.2.1, hh.2.2.2.2.1, hh.2.1⟩
  · intro r h
    refine ⟨by simp [execToolResult, h], ?_⟩
    exact ⟨"Error (code ".data ++ (toString r.exitCode).data ++ "):\n".data,
      by simp [execErrorMessage]⟩
  · intro r h
    simp [execToolResult, h]

/-- Witness for the C7 theorem at concrete results. -/
theorem c7_nonzero_exit_witness :
    execToolResult { output := "oops".data, exitCode := 3 } =
      ToolOutcome.mcpError (execErrorMessage 3 "oops".data) ∧
    execToolResult { output := "fine".data, exitCode := 0 } =
      ToolOutcome.success "fine".data ∧
    (processPending c7Exit).1.pending = none :=
  ⟨(c7_nonzero_exit_is_normal.2.1 { output := "oops".data, exitCode := 3 } (by decide)).1,
   c7_nonzero_exit_is_normal.2.2.1 { output := "fine".data, exitCode := 0 } (by decide),
   (c7_nonzero_exit_is_normal.1 c7Exit (processPending c7Exit).1
     { output := [], exitCode := 7 } (by decide)).1⟩

/-- Claim C8: the inactivity timer is started by a successful fresh
    connect, restarted at execute acceptance and at every successful
    resolution; firing it disposes the session (terminal state, timer
    cancelled, registry notified) and the disposal callback then removes
    the current entry; a later getOrCreate under the same id builds a
    brand-new session under a fresh token, independently connected; and
    after disposal the timer is inactive and no operation on the disposed
    session changes its state, so the timer cannot fire again. -/
theorem c8_inactivity_timer_lifecycle :
    (∀ s : SessionState, s.disposed = false → (s.conn.isSome && s.shell.isSome) = false →
      (ensureConnected s ConnOutcome.ok).1.timerActive = true) ∧
    (∀ (s : SessionState) (env : ConnOutcome) (t c : List Char),
      s.disposed = false → s.conn.isSome = true → s.shell.isSome = true → s.pending = none →
      (execute s env t c).1.timerActive = true ∧
      (execute s env t c).2.2 = ExecOutcome.accepted (mkMarker t)) ∧
    (∀ (s s2 : SessionState) (r : ExecResult),
      processPending s = (s2, some r) → s2.timerActive = true) ∧
    (∀ s : SessionState, s.disposed = false → s.timerActive = true →
      fireTimer s = dispose s ∧ (fireTimer s).1.disposed = true ∧
      (fireTimer s).1.timerActive = false ∧ (fireTimer s).2.notifiedDispose = true) ∧
    (∀ (w : World) (id : String) (tok : Nat) (s : SessionState),
      storeGet w tok = some s → s.disposed = false → regGet w.reg id = some tok →
      regGet (disposeInWorld w id tok).reg id = none) ∧
    (∀ (w : World) (id : String), regGet w.reg id = none →
      (getOrCreate w id false ConnOutcome.ok).tok = w.nextTok ∧
      storeGet (getOrCreate w id false ConnOutcome.ok).world w.nextTok =
        some (ensureConnected initialSession ConnOutcome.ok).1 ∧
      regGet (getOrCreate w id false ConnOutcome.ok).world.reg id = some w.nextTok ∧
      (getOrCreate w id false ConnOutcome.ok).result = EnsureResult.connected) ∧
    (∀ (s : SessionState) (env : ConnOutcome) (t c : List Char),
      s.disposed = true →
      (dispose s).1 = s ∧ fireTimer s = (s, noEffects) ∧
      (ensureConnected s env).1 = s ∧ (execute s env t c).1 = s ∧
      (s.pending = none → processPending s = (s, none))) ∧
    (∀ s : SessionState, s.disposed = false → (dispose s).1.timerActive = false) := by
  refine ⟨?_, ?_, ?_, ?_, ?_, ?_, ?_, ?_⟩
  · intro s hd hcs
    simp [ensureConnected, hd, hcs]
  · intro s env t c hd hc hs hp
    obtain ⟨cn, hcn⟩ := Option.isSome_iff_exists.mp hc
    obtain ⟨sh, hsh⟩ := Option.isSome_iff_exists.mp hs
    have h1 : ensureConnected s env = (s, noEffects, EnsureResult.connected) := by
      simp [ensureConnected, hd, hcn, hsh]
    constructor
    · simp [execute, h1, hsh, hp]
    · simp [execute, h1, hsh, hp]
  · intro s s2 r h
    exact (processPending_some_inv s s2 r h).2.1
  · intro s hd ht
    have h1 : fireTimer s = dispose s := rfl
    refine ⟨h1, ?_, ?_, ?_⟩ <;> simp [fireTimer, dispose, cleanup, hd]
  · intro w id tok s hs hd hreg
    have hn : (dispose s).2.notifiedDispose = true := by
      simp [dispose, cleanup, hd]
    have hw2 : (storeSet w tok (dispose s).1).reg = w.reg := rfl
    simp only [disposeInWorld, hs, hn, if_true, hw2]
    simp [disposalCallback, hreg, regGet_regDelete]
  · intro w id hreg
    have hr : ensureConnected initialSession ConnOutcome.ok =
        ({ initialSession with conn := some 0, shell := some 1, attempts := 1,
                               nextConnId := 2, timerActive := true },
         noEffects, EnsureResult.connected) := by decide
    refine ⟨?_, ?_, ?_, ?_⟩
    · simp only [getOrCreate, hreg]
    · simp only [getOrCreate, hreg, hr]
      simp only [noEffects]
      simp [storeGet, storeSet, List.find?]
    · simp only [getOrCreate, hreg, hr]
      simp only [noEffects]
      simp only [storeSet, regSet, hreg]
      simpa using regGet_append_fresh w.reg id w.nextTok hreg
    · simp only [getOrCreate, hreg, hr]
  · intro s env t c hd
    have hdd : dispose s = (s, noEffects) := dispose_already s hd
    have he : ensureConnected s env = (s, noEffects, EnsureResult.disposedError) := by
      simp [ensureConnected, hd]
    refine ⟨by rw [hdd], by simp [fireTimer, hdd], by rw [he], ?_, ?_⟩
    · simp [execute, he]
    · intro hp
      exact processPending_waits s (Or.inl hp)
  · intro s hd
    simp [dispose, cleanup, hd]

/-- Witness for the C8 theorem at concrete sessions, a concrete world with
    one live entry, and a concrete empty world. -/
theorem c8_timer_witness :
    (ensureConnected initialSession ConnOutcome.ok).1.timerActive = true ∧
    (fireTimer (connectedWith [] [])).1.disposed = true ∧
    regGet (disposeInWorld
      { reg := [("a", 0)], store := [(0, initialSession)], nextTok := 1 } "a" 0).reg "a" = none ∧
    (getOrCreate { reg := [], store := [], nextTok := 3 } "a" false ConnOutcome.ok).tok = 3 :=
  ⟨c8_inactivity_timer_lifecycle.1 initialSession (by decide) (by decide),
   (c8_inactivity_timer_lifecycle.2.2.2.1 (connectedWith [] []) (by decide) (by decide)).2.1,
   c8_inactivity_timer_lifecycle.2.2.2.2.1
     { reg := [("a", 0)], store := [(0, initialSession)], nextTok := 1 } "a" 0 initialSession
     (by decide) (by decide) (by decide),
   (c8_inactivity_timer_lifecycle.2.2.2.2.2.1
     { reg := [], store := [], nextTok := 3 } "a" (by decide)).1⟩

/-- Claim C9: the disposal callback removes the registry entry only when
    the entry currently stored under the id is the very session being
    disposed: a stale callback whose captured session differs from the
    current entry (or whose id is gone) leaves the registry untouched,
    while a current one deletes exactly that entry. -/
theorem c9_disposal_guard :
    (∀ (reg : Registry) (id : String) (old cur : Nat),
      regGet reg id = some cur → cur ≠ old → disposalCallback reg id old = reg) ∧
    (∀ (reg : Registry) (id : String) (old : Nat),
      regGet reg id = none → disposalCallback reg id old = reg) ∧
    (∀ (reg : Registry) (id : String) (tok : Nat),
      regGet reg id = some tok →
      disposalCallback reg id tok = regDelete reg id ∧
      regGet (disposalCallback reg id tok) id = none) := by
  refine ⟨?_, ?_, ?_⟩
  · intro reg id old cur h hne
    simp [disposalCallback, h, hne]
  · intro reg id old h
    simp [disposalCallback, h]
  · intro reg id tok h
    have hcb : disposalCallback reg id tok = regDelete reg id := by
      simp [disposalCallback, h]
    exact ⟨hcb, by rw [hcb]; exact regGet_regDelete reg id⟩

/-- Witness for the C9 theorem at a one-entry registry: a stale callback
    (captured session 0, current entry 1) deletes nothing, a current one
    deletes the entry. -/
theorem c9_disposal_guard_witness :
    disposalCallback [("a", 1)] "a" 0 = [("a", 1)] ∧
    disposalCallback [("a", 1)] "a" 1 = [] ∧
    regGet (disposalCallback [("a", 1)] "a" 1) "a" = none :=
  ⟨c9_disposal_guard.1 [("a", 1)] "a" 0 1 (by decide) (by decide),
   ((c9_disposal_guard.2.2 [("a", 1)] "a" 1 (by decide)).1).trans (by decide),
   (c9_disposal_guard.2.2 [("a", 1)] "a" 1 (by decide)).2⟩

/-- jsTrim leaves a run of a non-whitespace letter unchanged. -/
theorem jsTrim_replicate_a (n : Nat) :
    jsTrim (List.replicate n 'a') = List.replicate n 'a' := by
  have ha : isJsWs 'a' = false := by decide
  have hd : ∀ m : Nat, (List.replicate m 'a').dropWhile isJsWs = List.replicate m 'a' := by
    intro m
    cases m with
    | zero => rfl
    | succ k =>
      rw [List.replicate_succ, List.dropWhile_cons, ha]
      simp
  unfold jsTrim
  rw [hd, List.reverse_replicate, hd, List.reverse_replicate]

/-- Claim C10: sanitizeCommand returns exactly the trimmed command whenever
    the trimmed form is non-empty and at most 15000 characters long; it
    fails with the invalid-params empty error when the trimmed form is
    empty; for trimmed inputs longer than 15000 characters it fails with an
    error whose message claims a maximum of 1000 characters, although the
    enforced bound is 15000. -/
theorem c10_sanitize_command (c : List Char) :
    (jsTrim c ≠ [] → (jsTrim c).length ≤ 15000 →
      sanitizeCommand c = SanitizeResult.ok (jsTrim c)) ∧
    (jsTrim c = [] → sanitizeCommand c = SanitizeResult.invalidParams emptyMessage) ∧
    ((jsTrim c).length > 15000 →
      sanitizeCommand c = SanitizeResult.invalidParams tooLongMessage) ∧
    maxCommandLength = 15000 ∧
    tooLongMessage = "Command is too long (max 1000 characters)".data := by
  refine ⟨?_, ?_, ?_, rfl, rfl⟩
  · intro h1 h2
    have h3 : ¬ ((jsTrim c).length > 15000) := not_lt.mpr h2
    simp [sanitizeCommand, maxCommandLength, h1, h3]
  · intro h
    simp [sanitizeCommand, h]
  · intro h
    have h1 : jsTrim c ≠ [] := by
      intro he
      rw [he] at h
      simp at h
    simp [sanitizeCommand, maxCommandLength, h1, h]

/-- Witness for the C10 theorem: a whitespace-only command, an ordinary
    command, and a 15001-character command. -/
theorem c10_sanitize_witness :
    sanitizeCommand "   ".data = SanitizeResult.invalidParams emptyMessage ∧
    sanitizeCommand "  ls  ".data = SanitizeResult.ok "ls".data ∧
    sanitizeCommand (List.replicate 15001 'a') = SanitizeResult.invalidParams tooLongMessage := by
  refine ⟨(c10_sanitize_command "   ".data).2.1 (by decide), ?_, ?_⟩
  · exact ((c10_sanitize_command "  ls  ".data).1 (by decide) (by decide)).trans (by decide)
  · refine (c10_sanitize_command (List.replicate 15001 'a')).2.2.1 ?_
    rw [jsTrim_replicate_a]
    simp only [List.length_replicate]
    omega
